import Mathlib

/-!
Verification of the post scheduling and delivery subsystem of the
tashinabi_bot repository: a shallow embedding of the queue data model
(`src/database/models.py`), the queue repository operations
(`src/database/repository.py`), the scheduled dispatcher (`auto_post.py`)
and the manual "post now" handler (`app.py`), together with theorems about
due-item selection, status transitions, partial-failure handling and the
state-machine invariants.

Timestamps are ISO-8601 strings compared byte-wise, exactly as SQLite
compares TEXT columns; Lean's `String` linear order (lexicographic on
code points) coincides with that comparison on ASCII timestamps.
-/

attribute [local semireducible] List.merge List.mergeSort

namespace Tashinabi

/-- The `Post` dataclass from `src/database/models.py`.  Note that the model has
`tweet_id` and `ig_media_id` columns but *no* `fb_post_id` field. -/
structure Post where
  pattern : String
  x_content : String
  ig_content : String
  product_id : Option Nat := none
  id : Nat
  tweet_id : Option String := none
  ig_media_id : Option String := none
  posted_at : Option String := none
  created_at : String := ""
deriving DecidableEq, Repr

/-- The `PostQueue` dataclass from `src/database/models.py`: one queue entry. -/
structure PostQueue where
  post_id : Nat
  platform : String
  scheduled_at : String
  status : String := "pending"
  error_msg : Option String := none
  id : Nat
  created_at : String := ""
  posted_at : Option String := none
deriving DecidableEq, Repr

/-- The persistent store: the `posts` and `post_queue` tables. -/
structure DB where
  posts : List Post
  queue : List PostQueue
deriving DecidableEq, Repr

/-! ### SQLite TEXT comparison

SQLite compares TEXT columns with memcmp on the UTF-8 bytes (BINARY
collation), which on UTF-8 coincides with lexicographic comparison of
code points. -/

/-- Lexicographic `≤` on lists of characters (code-point order). -/
def charListLe : List Char → List Char → Bool
  | [], _ => true
  | _ :: _, [] => false
  | a :: as, b :: bs => if a = b then charListLe as bs else decide (a < b)

/-- Evaluation of `a <= b` as SQLite evaluates it on TEXT values. -/
def strLe (a b : String) : Bool := charListLe a.data b.data

/-! ### Repository operations (`src/database/repository.py`) -/

/-- Model of `get_post(post_id)`: `SELECT * FROM posts WHERE id = ?` + `fetchone`. -/
def get_post (db : DB) (post_id : Nat) : Option Post :=
  db.posts.find? (fun p => p.id == post_id)

/-- Model of `update_post_sns_ids(post_id, tweet_id=None, ig_media_id=None,
posted_at=None)`:
`UPDATE posts SET tweet_id=COALESCE(?, tweet_id),
ig_media_id=COALESCE(?, ig_media_id), posted_at=? WHERE id=?`
with `now = posted_at or datetime.now().isoformat()`.
The signature has no `fb_post_id` parameter. -/
def update_post_sns_ids (db : DB) (post_id : Nat)
    (tweet_id : Option String := none) (ig_media_id : Option String := none)
    (posted_at : Option String := none) (clock : String := "") : DB :=
  let now := posted_at.getD clock
  { db with
    posts := db.posts.map (fun p =>
      if p.id == post_id then
        { p with
          tweet_id := match tweet_id with
            | some t => some t
            | none => p.tweet_id
          ig_media_id := match ig_media_id with
            | some g => some g
            | none => p.ig_media_id
          posted_at := some now }
      else p) }

/-- Model of `add_to_queue(item)`: INSERT of the item's fields as given, assigning the
row id (`cursor.lastrowid`) and `created_at = now`. -/
def add_to_queue (db : DB) (item : PostQueue) (newId : Nat) (clock : String) : DB :=
  { db with queue := db.queue ++ [{ item with id := newId, created_at := clock }] }

/-- Model of `list_due_queue()`:
`SELECT * FROM post_queue WHERE status='pending' AND scheduled_at <= ?
ORDER BY scheduled_at` with `? = datetime.now().isoformat()`. -/
def list_due_queue (db : DB) (clock : String) : List PostQueue :=
  (db.queue.filter (fun e =>
      e.status == "pending" && strLe e.scheduled_at clock)).mergeSort
    (fun a b => strLe a.scheduled_at b.scheduled_at)

/-- Model of `update_queue_status(queue_id, status, error_msg=None, posted_at=None)`:
`UPDATE post_queue SET status=?, error_msg=?, posted_at=? WHERE id=?` with
params `(status, error_msg, now if status == "posted" else None, queue_id)`
and `now = posted_at or datetime.now().isoformat()`. -/
def update_queue_status (db : DB) (queue_id : Nat) (status : String)
    (error_msg : Option String := none) (posted_at : Option String := none)
    (clock : String := "") : DB :=
  let now := posted_at.getD clock
  { db with
    queue := db.queue.map (fun e =>
      if e.id == queue_id then
        { e with
          status := status
          error_msg := error_msg
          posted_at := if status == "posted" then some now else none }
      else e) }

/-- Model of `delete_queue_item(queue_id)`: `DELETE FROM post_queue WHERE id=?`. -/
def delete_queue_item (db : DB) (queue_id : Nat) : DB :=
  { db with queue := db.queue.filter (fun e => !(e.id == queue_id)) }

/-! ### Platform publishers (external collaborators, `src/sns/*`)

Each publisher call either returns an external id or raises with a message;
`check_credentials` reports whether credentials are configured. -/

/-- Behaviour of the three platform clients during one cycle. -/
structure Publishers where
  x_creds : Bool
  ig_creds : Bool
  post_tweet : String → Except String String
  post_text_only : String → Except String String
  post_text : String → Except String String

/-- Observable publisher invocations (content passed to each `publish`). -/
inductive Event where
  | xPublish (content : String)
  | igPublish (content : String)
  | fbPublish (content : String)
deriving DecidableEq, Repr

/-! ### Scheduled dispatcher (`auto_post.py`, `run()`) -/

/-- The `if item.platform in ("x", "both")` block of `auto_post.run()`:
check credentials, call `post_tweet`, stamp `tweet_id` on success, record
the `X: `-tagged error on exception, `X: APIキー未設定` without
credentials.  Returns the store, publisher invocations and error strings. -/
def xAttempt (pubs : Publishers) (clock : String) (platform : String)
    (post : Post) (db : DB) : DB × List Event × List String :=
  if platform == "x" || platform == "both" then
    if pubs.x_creds then
      match pubs.post_tweet post.x_content with
      | .ok tid =>
        (update_post_sns_ids db post.id (some tid) none none clock,
         [Event.xPublish post.x_content], [])
      | .error e => (db, [Event.xPublish post.x_content], ["X: " ++ e])
    else (db, [], ["X: APIキー未設定"])
  else (db, [], [])

/-- The `if item.platform in ("instagram", "both")` block of
`auto_post.run()`. -/
def igAttempt (pubs : Publishers) (clock : String) (platform : String)
    (post : Post) (db : DB) : DB × List Event × List String :=
  if platform == "instagram" || platform == "both" then
    if pubs.ig_creds then
      match pubs.post_text_only post.ig_content with
      | .ok gid =>
        (update_post_sns_ids db post.id none (some gid) none clock,
         [Event.igPublish post.ig_content], [])
      | .error e => (db, [Event.igPublish post.ig_content], ["IG: " ++ e])
    else (db, [], ["Instagram: APIキー未設定"])
  else (db, [], [])

/-- The final status write of the loop body (`auto_post.py` lines 96–101
and the `app.py` handler tail): `failed` with the semicolon-joined errors
when any were collected, `posted` otherwise. -/
def finishItem (db : DB) (queue_id : Nat) (errors : List String)
    (events : List Event) (clock : String) : DB × List Event :=
  if errors.isEmpty then
    (update_queue_status db queue_id "posted" none none clock, events)
  else
    (update_queue_status db queue_id "failed"
      (some (String.intercalate "; " errors)) none clock, events)

/-- The per-entry body of the loop in `auto_post.run()`: resolve the post
(`failed`/`"post not found"` if missing — note this happens *before* the
dry-run check), then in non-dry-run mode attempt X and/or Instagram and
write the final status.  Returns the new store plus the publisher
invocations made. -/
def processItem (pubs : Publishers) (dryRun : Bool) (clock : String)
    (db : DB) (item : PostQueue) : DB × List Event :=
  match get_post db item.post_id with
  | none =>
    (update_queue_status db item.id "failed" (some "post not found") none clock, [])
  | some post =>
    if dryRun then (db, [])
    else
      let s1 := xAttempt pubs clock item.platform post db
      let s2 := igAttempt pubs clock item.platform post s1.1
      finishItem s2.1 item.id (s1.2.2 ++ s2.2.2) (s1.2.1 ++ s2.2.1) clock

/-- The `for item in due_items` loop of `auto_post.run()`. -/
def runLoop (pubs : Publishers) (dryRun : Bool) (clock : String) :
    DB → List Event → List PostQueue → DB × List Event
  | db, evs, [] => (db, evs)
  | db, evs, item :: rest =>
    let r := processItem pubs dryRun clock db item
    runLoop pubs dryRun clock r.1 (evs ++ r.2) rest

/-- One dispatch cycle: `auto_post.run()` — fetch `list_due_queue()` and
process each due item in order (an empty due list is a no-op). -/
def run (pubs : Publishers) (dryRun : Bool) (clock : String) (db : DB) :
    DB × List Event :=
  runLoop pubs dryRun clock db [] (list_due_queue db clock)

/-! ### Manual override: the "post now" handler in `app.py`

The handler does not check `get_post` for `None`; a missing post surfaces
as an `AttributeError` inside the per-platform `try`, caught like a publish
error.  In the Facebook branch, the call
`repository.update_post_sns_ids(post.id, fb_post_id=fbid)` raises
`TypeError` because `update_post_sns_ids` has no `fb_post_id` parameter
(and neither the `posts` table nor the `Post` dataclass has that column);
the exception is caught and recorded as an `FB:`-prefixed error and nothing
is written to the store. -/

/-- Message of the `AttributeError` raised by an attribute access on `None`
(quotes of the Python message elided). -/
def noneAttrError (attr : String) : String :=
  "NoneType object has no attribute " ++ attr

/-- Message of the `TypeError` raised by passing the keyword `fb_post_id`
to `update_post_sns_ids` (quotes of the Python message elided). -/
def fbKwargError : String :=
  "update_post_sns_ids() got an unexpected keyword argument fb_post_id"

/-- The `if row["platform"] in ("x", "both")` block of the handler (no
credential check on this path; a missing post raises `AttributeError`
inside the `try`). -/
def manualXAttempt (pubs : Publishers) (clock : String) (platform : String)
    (post? : Option Post) (db : DB) : DB × List Event × List String :=
  if platform == "x" || platform == "both" then
    match post? with
    | none => (db, [], ["X: " ++ noneAttrError "x_content"])
    | some post =>
      match pubs.post_tweet post.x_content with
      | .ok tid =>
        (update_post_sns_ids db post.id (some tid) none none clock,
         [Event.xPublish post.x_content], [])
      | .error e => (db, [Event.xPublish post.x_content], ["X: " ++ e])
  else (db, [], [])

/-- The `if row["platform"] in ("instagram", "both")` block of the handler. -/
def manualIGAttempt (pubs : Publishers) (clock : String) (platform : String)
    (post? : Option Post) (db : DB) : DB × List Event × List String :=
  if platform == "instagram" || platform == "both" then
    match post? with
    | none => (db, [], ["IG: " ++ noneAttrError "ig_content"])
    | some post =>
      match pubs.post_text_only post.ig_content with
      | .ok gid =>
        (update_post_sns_ids db post.id none (some gid) none clock,
         [Event.igPublish post.ig_content], [])
      | .error e => (db, [Event.igPublish post.ig_content], ["IG: " ++ e])
  else (db, [], [])

/-- The `if row["platform"] == "facebook"` block of the handler: a
successful `post_text` is followed by the stamping call, which raises
`TypeError` (caught by the same `except`), so the success case records an
`FB: `-tagged error and writes nothing. -/
def manualFBAttempt (pubs : Publishers) (platform : String)
    (post? : Option Post) (db : DB) : DB × List Event × List String :=
  if platform == "facebook" then
    match post? with
    | none => (db, [], ["FB: " ++ noneAttrError "ig_content"])
    | some post =>
      match pubs.post_text post.ig_content with
      | .ok _fbid =>
        (db, [Event.fbPublish post.ig_content], ["FB: " ++ fbKwargError])
      | .error e => (db, [Event.fbPublish post.ig_content], ["FB: " ++ e])
  else (db, [], [])

/-- Body of the `▶️ 今すぐ投稿` button in `app.py` (lines 568–597), applied
to queue row `row`; the surrounding UI only renders the button when
`row.status ∈ {pending, failed}`. -/
def manualPostNow (pubs : Publishers) (clock : String) (db : DB)
    (row : PostQueue) : DB × List Event :=
  let post? := get_post db row.post_id
  let s1 := manualXAttempt pubs clock row.platform post? db
  let s2 := manualIGAttempt pubs clock row.platform post? s1.1
  let s3 := manualFBAttempt pubs row.platform post? s2.1
  finishItem s3.1 row.id (s1.2.2 ++ s2.2.2 ++ s3.2.2)
    (s1.2.1 ++ s2.2.1 ++ s3.2.1) clock

/-! ### Public operations on the store, as a transition system -/

/-- One invocation of a public operation of the subsystem. -/
inductive Op where
  | add (item : PostQueue) (newId : Nat) (clock : String)
  | updateStatus (queue_id : Nat) (status : String)
      (error_msg : Option String) (posted_at : Option String) (clock : String)
  | delete (queue_id : Nat)
  | dispatch (pubs : Publishers) (dryRun : Bool) (clock : String)
  | manual (pubs : Publishers) (queue_id : Nat) (clock : String)

/-- Apply one public operation to the store.  `manual` acts on the row with
the given id when that row exists and the UI guard
(`status in ("pending", "failed")`) lets the button render. -/
def applyOp (db : DB) : Op → DB
  | .add item newId clock => add_to_queue db item newId clock
  | .updateStatus qid s msg pa clock => update_queue_status db qid s msg pa clock
  | .delete qid => delete_queue_item db qid
  | .dispatch pubs dr clock => (run pubs dr clock db).1
  | .manual pubs qid clock =>
    match db.queue.find? (fun e => e.id == qid) with
    | some row =>
      if row.status == "pending" || row.status == "failed" then
        (manualPostNow pubs clock db row).1
      else db
    | none => db

/-- Apply a sequence of public operations in order. -/
def applyOps (db : DB) (ops : List Op) : DB := ops.foldl applyOp db

/-! ### Order properties of the SQLite TEXT comparison -/

theorem charListLe_total : ∀ a b, charListLe a b || charListLe b a := by
  intro a
  induction a with
  | nil => intro b; simp [charListLe]
  | cons x xs ih =>
    intro b
    cases b with
    | nil => simp [charListLe]
    | cons y ys =>
      by_cases h : x = y
      · subst h
        simpa [charListLe] using ih ys
      · have h2 : x < y ∨ y < x := lt_or_gt_of_ne h
        rcases h2 with h2 | h2 <;> simp [charListLe, h, Ne.symm h, h2]

theorem charListLe_trans :
    ∀ a b c, charListLe a b → charListLe b c → charListLe a c := by
  intro a
  induction a with
  | nil => intro b c _ _; simp [charListLe]
  | cons x xs ih =>
    intro b c h1 h2
    cases b with
    | nil => simp [charListLe] at h1
    | cons y ys =>
      cases c with
      | nil => simp [charListLe] at h2
      | cons z zs =>
        by_cases hxy : x = y <;> by_cases hyz : y = z
        · subst hxy; subst hyz
          simp only [charListLe, if_pos rfl] at h1 h2 ⊢
          exact ih ys zs h1 h2
        · subst hxy
          simp [charListLe, hyz] at h2
          simp [charListLe, hyz, h2]
        · subst hyz
          simp [charListLe, hxy] at h1
          simp [charListLe, hxy, h1]
        · simp [charListLe, hxy] at h1
          simp [charListLe, hyz] at h2
          have hxz : x < z := lt_trans h1 h2
          simp [charListLe, ne_of_lt hxz, hxz]

theorem strLe_total (a b : String) : strLe a b || strLe b a :=
  charListLe_total a.data b.data

theorem strLe_trans {a b c : String} (h1 : strLe a b) (h2 : strLe b c) :
    strLe a c :=
  charListLe_trans a.data b.data c.data h1 h2

/-! ### Frame lemmas for the repository operations -/

/-- The operation `update_queue_status` does not touch the `posts` table. -/
theorem update_queue_status_posts (db : DB) (qid : Nat) (s : String)
    (msg pa : Option String) (clock : String) :
    (update_queue_status db qid s msg pa clock).posts = db.posts := rfl

/-- The operation `update_post_sns_ids` does not touch the `post_queue` table. -/
theorem update_post_sns_ids_queue (db : DB) (pid : Nat)
    (tid gid pa : Option String) (clock : String) :
    (update_post_sns_ids db pid tid gid pa clock).queue = db.queue := rfl

/-- A queue row whose id is not the updated one is carried over unchanged
by `update_queue_status`. -/
theorem mem_update_queue_status_of_ne {db : DB} {qid : Nat} {s : String}
    {msg pa : Option String} {clock : String} {e : PostQueue}
    (he : e ∈ db.queue) (hne : e.id ≠ qid) :
    e ∈ (update_queue_status db qid s msg pa clock).queue := by
  refine List.mem_map.mpr ⟨e, he, ?_⟩
  simp [hne]

/-- The queue row with the updated id is rewritten to the given status,
error text, and (for `posted`) timestamp. -/
theorem mem_update_queue_status_self {db : DB} {qid : Nat} {s : String}
    {msg pa : Option String} {clock : String} {e : PostQueue}
    (he : e ∈ db.queue) (hid : e.id = qid) :
    { e with
      status := s
      error_msg := msg
      posted_at := if s == "posted" then some (pa.getD clock) else none } ∈
      (update_queue_status db qid s msg pa clock).queue := by
  refine List.mem_map.mpr ⟨e, he, ?_⟩
  simp [hid]

/-- Reads through `get_post` are unaffected by queue-status updates. -/
theorem get_post_update_queue_status (db : DB) (qid : Nat) (s : String)
    (msg pa : Option String) (clock : String) (pid : Nat) :
    get_post (update_queue_status db qid s msg pa clock) pid = get_post db pid := rfl

/-- Mapping an id-preserving function over a post list does not change
whether a `find?` by id succeeds. -/
theorem find?_isSome_map_of_id (f : Post → Post) (hf : ∀ p, (f p).id = p.id)
    (l : List Post) (pid : Nat) :
    ((l.map f).find? (fun p => p.id == pid)).isSome
      = (l.find? (fun p => p.id == pid)).isSome := by
  induction l with
  | nil => rfl
  | cons p l ih =>
    by_cases h : p.id = pid
    · simp [List.find?_cons, hf, h]
    · have h2 : (p.id == pid) = false := by simp [h]
      rw [List.map_cons, List.find?_cons, List.find?_cons]
      simp only [hf p, h2]
      exact ih

/-- The operation `update_post_sns_ids` changes fields of one post but never whether a
post with a given id exists. -/
theorem get_post_isSome_update_post_sns_ids (db : DB) (pid0 : Nat)
    (tid gid pa : Option String) (clock : String) (pid : Nat) :
    (get_post (update_post_sns_ids db pid0 tid gid pa clock) pid).isSome
      = (get_post db pid).isSome := by
  unfold get_post update_post_sns_ids
  exact find?_isSome_map_of_id _ (fun p => by split <;> rfl) db.posts pid

/-! ### Frame lemmas for the dispatcher steps -/

theorem xAttempt_queue (pubs : Publishers) (clock platform : String)
    (post : Post) (db : DB) :
    (xAttempt pubs clock platform post db).1.queue = db.queue := by
  unfold xAttempt
  split
  · split
    · split <;> rfl
    · rfl
  · rfl

theorem igAttempt_queue (pubs : Publishers) (clock platform : String)
    (post : Post) (db : DB) :
    (igAttempt pubs clock platform post db).1.queue = db.queue := by
  unfold igAttempt
  split
  · split
    · split <;> rfl
    · rfl
  · rfl

theorem xAttempt_get_post_isSome (pubs : Publishers) (clock platform : String)
    (post : Post) (db : DB) (pid : Nat) :
    (get_post (xAttempt pubs clock platform post db).1 pid).isSome
      = (get_post db pid).isSome := by
  unfold xAttempt
  split
  · split
    · split
      · exact get_post_isSome_update_post_sns_ids ..
      · rfl
    · rfl
  · rfl

theorem igAttempt_get_post_isSome (pubs : Publishers) (clock platform : String)
    (post : Post) (db : DB) (pid : Nat) :
    (get_post (igAttempt pubs clock platform post db).1 pid).isSome
      = (get_post db pid).isSome := by
  unfold igAttempt
  split
  · split
    · split
      · exact get_post_isSome_update_post_sns_ids ..
      · rfl
    · rfl
  · rfl

theorem finishItem_posts (db : DB) (qid : Nat) (errors : List String)
    (events : List Event) (clock : String) :
    (finishItem db qid errors events clock).1.posts = db.posts := by
  unfold finishItem
  split <;> rfl

theorem mem_finishItem_of_ne {db : DB} {qid : Nat} {errors : List String}
    {events : List Event} {clock : String} {e : PostQueue}
    (he : e ∈ db.queue) (hne : e.id ≠ qid) :
    e ∈ (finishItem db qid errors events clock).1.queue := by
  unfold finishItem
  split <;> exact mem_update_queue_status_of_ne he hne

/-- A queue row whose id is not the processed item's id is carried over
unchanged by one step of the dispatcher loop. -/
theorem mem_processItem_of_ne {pubs : Publishers} {dryRun : Bool}
    {clock : String} {db : DB} {item : PostQueue} {e : PostQueue}
    (he : e ∈ db.queue) (hne : e.id ≠ item.id) :
    e ∈ (processItem pubs dryRun clock db item).1.queue := by
  unfold processItem
  cases hg : get_post db item.post_id with
  | none => exact mem_update_queue_status_of_ne he hne
  | some post =>
    dsimp only
    by_cases hd : dryRun
    · simpa [hd] using he
    · rw [if_neg hd]
      refine mem_finishItem_of_ne ?_ hne
      rw [igAttempt_queue, xAttempt_queue]
      exact he

theorem get_post_finishItem (db : DB) (qid : Nat) (errors : List String)
    (events : List Event) (clock : String) (pid : Nat) :
    get_post (finishItem db qid errors events clock).1 pid = get_post db pid := by
  unfold get_post
  rw [finishItem_posts]

/-- One dispatcher step never changes which post ids exist. -/
theorem processItem_get_post_isSome (pubs : Publishers) (dryRun : Bool)
    (clock : String) (db : DB) (item : PostQueue) (pid : Nat) :
    (get_post (processItem pubs dryRun clock db item).1 pid).isSome
      = (get_post db pid).isSome := by
  unfold processItem
  cases hg : get_post db item.post_id with
  | none => rfl
  | some post =>
    dsimp only
    by_cases hd : dryRun
    · simp [hd]
    · rw [if_neg hd, get_post_finishItem, igAttempt_get_post_isSome,
        xAttempt_get_post_isSome]

/-- A missing post transitions the entry straight to `failed` with
`"post not found"` and makes no publisher call — in dry-run mode too,
because the check at `auto_post.py:54` precedes the dry-run check. -/
theorem processItem_missing {pubs : Publishers} {dryRun : Bool}
    {clock : String} {db : DB} {item : PostQueue}
    (hg : get_post db item.post_id = none) :
    processItem pubs dryRun clock db item =
      (update_queue_status db item.id "failed" (some "post not found") none clock,
       []) := by
  unfold processItem
  rw [hg]

/-- In dry-run mode an entry whose post exists is skipped entirely. -/
theorem processItem_dry_found {pubs : Publishers} {clock : String}
    {db : DB} {item : PostQueue} {post : Post}
    (hg : get_post db item.post_id = some post) :
    processItem pubs true clock db item = (db, []) := by
  unfold processItem
  rw [hg]
  rfl

/-- A dry-run step makes no publisher call. -/
theorem processItem_dry_events (pubs : Publishers) (clock : String)
    (db : DB) (item : PostQueue) :
    (processItem pubs true clock db item).2 = [] := by
  cases hg : get_post db item.post_id with
  | none => rw [processItem_missing hg]
  | some post => rw [processItem_dry_found hg]

theorem xAttempt_no_platform {pubs : Publishers} {clock platform : String}
    {post : Post} {db : DB} (hx : platform ≠ "x") (hboth : platform ≠ "both") :
    xAttempt pubs clock platform post db = (db, [], []) := by
  unfold xAttempt
  rw [if_neg (by simp [hx, hboth])]

theorem igAttempt_no_platform {pubs : Publishers} {clock platform : String}
    {post : Post} {db : DB} (hig : platform ≠ "instagram")
    (hboth : platform ≠ "both") :
    igAttempt pubs clock platform post db = (db, [], []) := by
  unfold igAttempt
  rw [if_neg (by simp [hig, hboth])]

/-- An entry whose platform value matches no branch collects no errors and
is marked `posted` without any publisher call. -/
theorem processItem_unknown_platform {pubs : Publishers} {clock : String}
    {db : DB} {item : PostQueue} {post : Post}
    (hg : get_post db item.post_id = some post)
    (hx : item.platform ≠ "x") (hig : item.platform ≠ "instagram")
    (hboth : item.platform ≠ "both") :
    processItem pubs false clock db item =
      (update_queue_status db item.id "posted" none none clock, []) := by
  unfold processItem
  rw [hg]
  dsimp only
  rw [if_neg Bool.false_ne_true, xAttempt_no_platform hx hboth,
    igAttempt_no_platform hig hboth]
  rfl

/-! ### Lemmas about the dispatcher loop -/

theorem runLoop_mem_queue {pubs : Publishers} {dryRun : Bool} {clock : String}
    {e : PostQueue} :
    ∀ {items : List PostQueue} {db : DB} {evs : List Event},
      e ∈ db.queue → (∀ it ∈ items, e.id ≠ it.id) →
      e ∈ (runLoop pubs dryRun clock db evs items).1.queue := by
  intro items
  induction items with
  | nil => intro db evs he _; exact he
  | cons it rest ih =>
    intro db evs he hne
    simp only [runLoop]
    exact ih (mem_processItem_of_ne he (hne it (by simp)))
      (fun x hx => hne x (by simp [hx]))

theorem runLoop_get_post_isSome (pubs : Publishers) (dryRun : Bool)
    (clock : String) (pid : Nat) :
    ∀ (items : List PostQueue) (db : DB) (evs : List Event),
      (get_post (runLoop pubs dryRun clock db evs items).1 pid).isSome
        = (get_post db pid).isSome := by
  intro items
  induction items with
  | nil => intro db evs; rfl
  | cons it rest ih =>
    intro db evs
    simp only [runLoop]
    rw [ih, processItem_get_post_isSome]

theorem runLoop_dry_events (pubs : Publishers) (clock : String) :
    ∀ (items : List PostQueue) (db : DB) (evs : List Event),
      (runLoop pubs true clock db evs items).2 = evs := by
  intro items
  induction items with
  | nil => intro db evs; rfl
  | cons it rest ih =>
    intro db evs
    simp only [runLoop]
    rw [ih, processItem_dry_events, List.append_nil]

/-! ### The due-selection query -/

theorem mem_list_due_queue {db : DB} {clock : String} {e : PostQueue} :
    e ∈ list_due_queue db clock ↔
      e ∈ db.queue ∧ e.status = "pending" ∧ strLe e.scheduled_at clock = true := by
  unfold list_due_queue
  simp [List.mem_filter, and_assoc]

theorem list_due_queue_nodup_ids {db : DB} {clock : String}
    (h : (db.queue.map (fun q => q.id)).Nodup) :
    ((list_due_queue db clock).map (fun q => q.id)).Nodup := by
  have hsub : List.Sublist (db.queue.filter
      (fun e => e.status == "pending" && strLe e.scheduled_at clock)) db.queue :=
    List.filter_sublist _
  have h2 := ((hsub.map (fun q => q.id)).nodup h)
  have hperm := List.mergeSort_perm
    (db.queue.filter (fun e => e.status == "pending" && strLe e.scheduled_at clock))
    (fun a b => strLe a.scheduled_at b.scheduled_at)
  exact ((hperm.map (fun q => q.id)).nodup_iff).mpr h2

/-- With distinct row ids, two rows of the queue with the same id are the
same row. -/
theorem eq_of_mem_of_id_eq {l : List PostQueue}
    (h : (l.map (fun q => q.id)).Nodup) {a b : PostQueue}
    (ha : a ∈ l) (hb : b ∈ l) (hid : a.id = b.id) : a = b :=
  List.inj_on_of_nodup_map h ha hb hid

theorem runLoop_append (pubs : Publishers) (dryRun : Bool) (clock : String)
    (l1 l2 : List PostQueue) : ∀ (db : DB) (evs : List Event),
    runLoop pubs dryRun clock db evs (l1 ++ l2)
      = runLoop pubs dryRun clock (runLoop pubs dryRun clock db evs l1).1
          (runLoop pubs dryRun clock db evs l1).2 l2 := by
  induction l1 with
  | nil => intro db evs; rfl
  | cons it rest ih =>
    intro db evs
    rw [List.cons_append]
    simp only [runLoop]
    exact ih ..

/-- In dry-run mode, a queue row whose referenced post exists is carried
through the whole loop unchanged: only rows with missing posts are
written, and (with distinct ids) none of those writes can hit this row. -/
theorem runLoop_dry_preserves {pubs : Publishers} {clock : String}
    (db0 : DB) (hN : (db0.queue.map (fun q => q.id)).Nodup)
    {e : PostQueue} (he0 : e ∈ db0.queue) :
    ∀ (items : List PostQueue), (∀ it ∈ items, it ∈ db0.queue) →
      ∀ (db : DB) (evs : List Event),
        e ∈ db.queue → (get_post db e.post_id).isSome = true →
        e ∈ (runLoop pubs true clock db evs items).1.queue := by
  intro items
  induction items with
  | nil => intro _ db evs he _; exact he
  | cons it rest ih =>
    intro hsub db evs he hsome
    simp only [runLoop]
    cases hg : get_post db it.post_id with
    | some post =>
      rw [processItem_dry_found hg]
      exact ih (fun x hx => hsub x (List.mem_cons_of_mem _ hx)) db _ he hsome
    | none =>
      rw [processItem_missing hg]
      have hne : e.id ≠ it.id := by
        intro hEq
        have heq2 : e = it := eq_of_mem_of_id_eq hN he0 (hsub it (List.mem_cons_self ..)) hEq
        rw [heq2, hg] at hsome
        simp at hsome
      refine ih (fun x hx => hsub x (List.mem_cons_of_mem _ hx)) _ _
        (mem_update_queue_status_of_ne he hne) ?_
      rw [get_post_update_queue_status]
      exact hsome

/-! ### Concrete store contents used to instantiate the theorems -/

/-- The post of the spec's partial-failure scenario (`post_id = 10`). -/
def post10 : Post :=
  { pattern := "news", x_content := "xc", ig_content := "gc", id := 10 }

/-- The queue entry of the spec's partial-failure scenario. -/
def entry1 : PostQueue :=
  { post_id := 10, platform := "both", scheduled_at := "2025-01-01T09:00:00",
    id := 1 }

/-- The store of the spec's partial-failure scenario. -/
def scenarioDB : DB := { posts := [post10], queue := [entry1] }

/-- Publisher behaviour of the scenario: X succeeds with `"t123"`,
Instagram raises `"rate limited"`, Facebook succeeds with `"fb1"`. -/
def scenarioPubs : Publishers :=
  { x_creds := true, ig_creds := true,
    post_tweet := fun _ => .ok "t123",
    post_text_only := fun _ => .error "rate limited",
    post_text := fun _ => .ok "fb1" }

/-- A store whose single due entry references a post that does not exist. -/
def noPostDB : DB := { posts := [], queue := [entry1] }

/-- A due pending entry with the `facebook` platform value. -/
def entryFb : PostQueue :=
  { post_id := 10, platform := "facebook",
    scheduled_at := "2025-01-01T09:00:00", id := 1 }

/-- Store with the `facebook` entry. -/
def fbDB : DB := { posts := [post10], queue := [entryFb] }

/-- A failed entry, due by time, next to a pending one. -/
def entryFailed : PostQueue :=
  { post_id := 10, platform := "x", scheduled_at := "2025-01-01T08:00:00",
    status := "failed", error_msg := some "X: boom", id := 2 }

/-- Store containing a failed and a pending entry. -/
def mixedDB : DB := { posts := [post10], queue := [entryFailed, entry1] }

/-! ## Claim theorems -/

/-- Claim C1: For every queue state and every current time, `list_due()`
returns exactly the entries with `status == pending` and
`scheduled_at <= now` — it includes every such entry and excludes every
entry with any other status or a future `scheduled_at`, regardless of
insertion order — and returns them ordered by `scheduled_at` ascending. -/
theorem list_due_queue_correct (db : DB) (clock : String) :
    (∀ e : PostQueue, e ∈ list_due_queue db clock ↔
        e ∈ db.queue ∧ e.status = "pending" ∧ strLe e.scheduled_at clock = true)
  ∧ (list_due_queue db clock).Pairwise
      (fun a b => strLe a.scheduled_at b.scheduled_at) := by
  refine ⟨fun e => mem_list_due_queue, ?_⟩
  unfold list_due_queue
  exact @List.sorted_mergeSort PostQueue
    (fun a b => strLe a.scheduled_at b.scheduled_at)
    (fun _ _ _ hab hbc => strLe_trans hab hbc)
    (fun a b => strLe_total a.scheduled_at b.scheduled_at) _

/-- Claim C3: the call `update_status(id, "posted")` sets `posted_at` to the given or
current timestamp and clears any prior `error_msg`; `update_status(id,
"failed", msg)` sets `error_msg` to exactly `msg` (no accumulation) and
nulls `posted_at` — for every entry and any prior field values. -/
theorem update_queue_status_transitions (db : DB) (qid : Nat)
    (msg clock : String) (pa : Option String) (e : PostQueue)
    (he : e ∈ db.queue) (hid : e.id = qid) :
    ({ e with
       status := "posted"
       error_msg := none
       posted_at := some (pa.getD clock) } ∈
        (update_queue_status db qid "posted" none pa clock).queue)
  ∧ ({ e with
       status := "failed"
       error_msg := some msg
       posted_at := none } ∈
        (update_queue_status db qid "failed" (some msg) pa clock).queue) := by
  constructor <;>
  · refine List.mem_map.mpr ⟨e, he, ?_⟩
    simp [hid]

/-- Witness for C3 at a concrete store: entry 1 with a stale error message
is marked posted (error cleared) and marked failed (posted_at nulled). -/
theorem update_queue_status_transitions_witness :
    (entryFailed ∈ mixedDB.queue ∧ entryFailed.id = 2)
  ∧ (({ entryFailed with
        status := "posted"
        error_msg := none
        posted_at := some "2025-01-02T00:00:00" } ∈
         (update_queue_status mixedDB 2 "posted" none none
           "2025-01-02T00:00:00").queue)
    ∧ ({ entryFailed with
         status := "failed"
         error_msg := some "boom"
         posted_at := none } ∈
          (update_queue_status mixedDB 2 "failed" (some "boom") none
            "2025-01-02T00:00:00").queue)) :=
  ⟨⟨by decide, by decide⟩,
   update_queue_status_transitions mixedDB 2 "boom" "2025-01-02T00:00:00"
     none entryFailed (by decide) (by decide)⟩

/-- Claim C10: calling `update_post_sns_ids` with a null `tweet_id` argument keeps
the stored `tweet_id`, and with a null `ig_media_id` argument keeps the
stored `ig_media_id` (stamping one platform never erases the other), while
`posted_at` is overwritten on every call. -/
theorem update_post_sns_ids_preserves_null_arg (db : DB) (pid : Nat)
    (clock : String) (tid gid pa : Option String) (p : Post)
    (hp : p ∈ db.posts) (hid : p.id = pid) :
    ({ p with
       ig_media_id := match gid with
         | some g => some g
         | none => p.ig_media_id
       posted_at := some (pa.getD clock) } ∈
        (update_post_sns_ids db pid none gid pa clock).posts)
  ∧ ({ p with
       tweet_id := match tid with
         | some t => some t
         | none => p.tweet_id
       posted_at := some (pa.getD clock) } ∈
        (update_post_sns_ids db pid tid none pa clock).posts) := by
  constructor
  · refine List.mem_map.mpr ⟨p, hp, ?_⟩
    cases gid <;> simp [hid]
  · refine List.mem_map.mpr ⟨p, hp, ?_⟩
    cases tid <;> simp [hid]

/-- Witness for C10: stamping only the Instagram id of post 10 keeps its
tweet id, and stamping only the tweet id keeps its Instagram id. -/
theorem update_post_sns_ids_preserves_null_arg_witness :
    (post10 ∈ scenarioDB.posts ∧ post10.id = 10)
  ∧ (({ post10 with
        ig_media_id := some "g9"
        posted_at := some "2025-01-02T00:00:00" } ∈
         (update_post_sns_ids scenarioDB 10 none (some "g9") none
           "2025-01-02T00:00:00").posts)
    ∧ ({ post10 with
         tweet_id := some "t9"
         posted_at := some "2025-01-02T00:00:00" } ∈
          (update_post_sns_ids scenarioDB 10 (some "t9") none none
            "2025-01-02T00:00:00").posts)) :=
  ⟨⟨by decide, by decide⟩,
   update_post_sns_ids_preserves_null_arg scenarioDB 10 "2025-01-02T00:00:00"
     (some "t9") (some "g9") none post10 (by decide) (by decide)⟩

/-- Claim C7: The scheduled dispatcher never selects, publishes, or mutates
an entry whose status is not `pending` (in particular `failed` or
`posted`): such an entry is not in the due selection, and its row is
unchanged after a full dispatch cycle. -/
theorem dispatcher_skips_non_pending (pubs : Publishers) (dryRun : Bool)
    (clock : String) (db : DB) (e : PostQueue)
    (hN : (db.queue.map (fun q => q.id)).Nodup)
    (he : e ∈ db.queue) (hst : e.status ≠ "pending") :
    e ∉ list_due_queue db clock ∧ e ∈ (run pubs dryRun clock db).1.queue := by
  constructor
  · intro hmem
    exact hst (mem_list_due_queue.mp hmem).2.1
  · refine runLoop_mem_queue he ?_
    intro it hit hEq
    have hitq := mem_list_due_queue.mp hit
    have heq2 : e = it := eq_of_mem_of_id_eq hN he hitq.1 hEq
    apply hst
    rw [heq2]
    exact hitq.2.1

/-- Witness for C7: the failed entry of the mixed store is not selected
and survives a cycle (with failing publishers) unchanged. -/
theorem dispatcher_skips_non_pending_witness :
    ((mixedDB.queue.map (fun q => q.id)).Nodup
      ∧ entryFailed ∈ mixedDB.queue ∧ entryFailed.status ≠ "pending")
  ∧ (entryFailed ∉ list_due_queue mixedDB "2025-01-01T09:05:00"
      ∧ entryFailed ∈
          (run scenarioPubs false "2025-01-01T09:05:00" mixedDB).1.queue) :=
  ⟨⟨by decide, by decide, by decide⟩,
   dispatcher_skips_non_pending scenarioPubs false "2025-01-01T09:05:00"
     mixedDB entryFailed (by decide) (by decide) (by decide)⟩

/-- Claim C6: A due entry whose referenced post does not exist is
transitioned to `failed` with `error_msg` exactly `"post not found"` in the
cycle's final state, and the step that handles it writes that transition
directly with no publisher invocation (second conjunct, for any store state
at the moment the entry is handled). -/
theorem dispatch_missing_post (pubs : Publishers) (clock : String) (db : DB)
    (e : PostQueue) (hN : (db.queue.map (fun q => q.id)).Nodup)
    (he : e ∈ db.queue) (hpend : e.status = "pending")
    (hdue : strLe e.scheduled_at clock = true)
    (hmiss : get_post db e.post_id = none) :
    ({ e with
       status := "failed"
       error_msg := some "post not found"
       posted_at := none } ∈ (run pubs false clock db).1.queue)
  ∧ ∀ (db' : DB), get_post db' e.post_id = none →
      processItem pubs false clock db' e =
        (update_queue_status db' e.id "failed" (some "post not found") none clock,
         []) := by
  refine ⟨?_, fun db' hg => processItem_missing hg⟩
  have hdueMem : e ∈ list_due_queue db clock :=
    mem_list_due_queue.mpr ⟨he, hpend, hdue⟩
  have hdueN : ((list_due_queue db clock).map (fun q => q.id)).Nodup :=
    list_due_queue_nodup_ids hN
  obtain ⟨l1, l2, hsplit⟩ := List.append_of_mem hdueMem
  rw [hsplit] at hdueN
  rw [List.map_append, List.map_cons, List.nodup_append] at hdueN
  obtain ⟨-, hcons, hdisj⟩ := hdueN
  have hl1 : ∀ it ∈ l1, it.id ≠ e.id := by
    intro it hit hEq
    exact hdisj (List.mem_map_of_mem _ hit)
      (by rw [hEq] at *; exact List.mem_cons_self ..)
  have hl2 : ∀ it ∈ l2, it.id ≠ e.id := by
    intro it hit hEq
    exact (List.nodup_cons.mp hcons).1
      (by rw [← hEq]; exact List.mem_map_of_mem _ hit)
  rw [run, hsplit, runLoop_append]
  have heMid : e ∈ (runLoop pubs false clock db [] l1).1.queue :=
    runLoop_mem_queue he (fun it hit => (hl1 it hit).symm)
  have hmissMid : get_post (runLoop pubs false clock db [] l1).1 e.post_id = none := by
    have h2 := runLoop_get_post_isSome pubs false clock e.post_id l1 db []
    rw [hmiss] at h2
    cases hm : get_post (runLoop pubs false clock db [] l1).1 e.post_id with
    | none => rfl
    | some q => rw [hm] at h2; simp at h2
  simp only [runLoop]
  rw [processItem_missing hmissMid]
  refine runLoop_mem_queue ?_ (fun it hit => (hl2 it hit).symm)
  exact mem_update_queue_status_self heMid rfl

/-- Witness for C6 at the concrete store with no posts: entry 1 ends
failed with `"post not found"`. -/
theorem dispatch_missing_post_witness :
    ((noPostDB.queue.map (fun q => q.id)).Nodup
      ∧ entry1 ∈ noPostDB.queue ∧ entry1.status = "pending"
      ∧ strLe entry1.scheduled_at "2025-01-01T09:05:00" = true
      ∧ get_post noPostDB entry1.post_id = none)
  ∧ (({ entry1 with
        status := "failed"
        error_msg := some "post not found"
        posted_at := none } ∈
         (run scenarioPubs false "2025-01-01T09:05:00" noPostDB).1.queue)
    ∧ ∀ (db' : DB), get_post db' entry1.post_id = none →
        processItem scenarioPubs false "2025-01-01T09:05:00" db' entry1 =
          (update_queue_status db' entry1.id "failed" (some "post not found")
            none "2025-01-01T09:05:00", [])) :=
  ⟨⟨by decide, by decide, by decide, by decide, by decide⟩,
   dispatch_missing_post scenarioPubs "2025-01-01T09:05:00" noPostDB entry1
     (by decide) (by decide) (by decide) (by decide) (by decide)⟩

/-- Claim C9: A due pending entry whose platform value is outside
`{"x", "instagram", "both"}` (for example `"facebook"`, which the
interactive surface can enqueue) is transitioned to `posted` by a
non-dry-run cycle without any publisher call: no platform branch matches
and the error list stays empty. -/
theorem dispatch_unknown_platform (pubs : Publishers) (clock : String)
    (db : DB) (e : PostQueue) (hN : (db.queue.map (fun q => q.id)).Nodup)
    (he : e ∈ db.queue) (hpend : e.status = "pending")
    (hdue : strLe e.scheduled_at clock = true)
    (hfound : (get_post db e.post_id).isSome = true)
    (hx : e.platform ≠ "x") (hig : e.platform ≠ "instagram")
    (hboth : e.platform ≠ "both") :
    ({ e with
       status := "posted"
       error_msg := none
       posted_at := some clock } ∈ (run pubs false clock db).1.queue)
  ∧ ∀ (db' : DB) (post : Post), get_post db' e.post_id = some post →
      processItem pubs false clock db' e =
        (update_queue_status db' e.id "posted" none none clock, []) := by
  refine ⟨?_, fun db' post hg => processItem_unknown_platform hg hx hig hboth⟩
  have hdueMem : e ∈ list_due_queue db clock :=
    mem_list_due_queue.mpr ⟨he, hpend, hdue⟩
  have hdueN : ((list_due_queue db clock).map (fun q => q.id)).Nodup :=
    list_due_queue_nodup_ids hN
  obtain ⟨l1, l2, hsplit⟩ := List.append_of_mem hdueMem
  rw [hsplit] at hdueN
  rw [List.map_append, List.map_cons, List.nodup_append] at hdueN
  obtain ⟨-, hcons, hdisj⟩ := hdueN
  have hl1 : ∀ it ∈ l1, it.id ≠ e.id := by
    intro it hit hEq
    exact hdisj (List.mem_map_of_mem _ hit)
      (by rw [hEq] at *; exact List.mem_cons_self ..)
  have hl2 : ∀ it ∈ l2, it.id ≠ e.id := by
    intro it hit hEq
    exact (List.nodup_cons.mp hcons).1
      (by rw [← hEq]; exact List.mem_map_of_mem _ hit)
  rw [run, hsplit, runLoop_append]
  have heMid : e ∈ (runLoop pubs false clock db [] l1).1.queue :=
    runLoop_mem_queue he (fun it hit => (hl1 it hit).symm)
  have hfoundMid : (get_post (runLoop pubs false clock db [] l1).1 e.post_id).isSome
      = true := by
    rw [runLoop_get_post_isSome]
    exact hfound
  obtain ⟨post, hpost⟩ := Option.isSome_iff_exists.mp hfoundMid
  simp only [runLoop]
  rw [processItem_unknown_platform hpost hx hig hboth]
  refine runLoop_mem_queue ?_ (fun it hit => (hl2 it hit).symm)
  exact mem_update_queue_status_self heMid rfl

/-- Witness for C9 at the concrete store: the `facebook` entry is marked
posted by the dispatcher without any publisher call. -/
theorem dispatch_unknown_platform_witness :
    ((fbDB.queue.map (fun q => q.id)).Nodup
      ∧ entryFb ∈ fbDB.queue ∧ entryFb.status = "pending"
      ∧ strLe entryFb.scheduled_at "2025-01-01T09:05:00" = true
      ∧ (get_post fbDB entryFb.post_id).isSome = true
      ∧ entryFb.platform ≠ "x" ∧ entryFb.platform ≠ "instagram"
      ∧ entryFb.platform ≠ "both")
  ∧ (({ entryFb with
        status := "posted"
        error_msg := none
        posted_at := some "2025-01-01T09:05:00" } ∈
         (run scenarioPubs false "2025-01-01T09:05:00" fbDB).1.queue)
    ∧ ∀ (db' : DB) (post : Post), get_post db' entryFb.post_id = some post →
        processItem scenarioPubs false "2025-01-01T09:05:00" db' entryFb =
          (update_queue_status db' entryFb.id "posted" none none
            "2025-01-01T09:05:00", [])) :=
  ⟨⟨by decide, by decide, by decide, by decide, by decide, by decide,
    by decide, by decide⟩,
   dispatch_unknown_platform scenarioPubs "2025-01-01T09:05:00" fbDB entryFb
     (by decide) (by decide) (by decide) (by decide) (by decide) (by decide)
     (by decide) (by decide)⟩

/-- Counterexample to **C4** as stated: in dry-run mode an otherwise
eligible due entry whose referenced post is missing is still mutated — it
ends `failed` with `"post not found"`, not `pending` — because the
post-resolution failure write at `auto_post.py:56` precedes the dry-run
check at `auto_post.py:62`. -/
theorem dry_run_mutates_missing_post_entry :
    (run scenarioPubs true "2025-01-01T09:05:00" noPostDB).1.queue =
      [{ entry1 with
         status := "failed"
         error_msg := some "post not found"
         posted_at := none }] := by decide

/-- Claim C4, amended: In dry-run mode a dispatch cycle makes no publisher
call, and every queue entry whose referenced post exists is left
completely unchanged (in particular a due entry remains `pending`); an
entry whose referenced post is missing is transitioned to `failed` with
`"post not found"` exactly as in a non-dry-run cycle. -/
theorem dry_run_cycle_frame (pubs : Publishers) (clock : String) (db : DB)
    (hN : (db.queue.map (fun q => q.id)).Nodup) :
    (run pubs true clock db).2 = []
  ∧ (∀ e ∈ db.queue, (get_post db e.post_id).isSome = true →
      e ∈ (run pubs true clock db).1.queue)
  ∧ ∀ (db' : DB) (e' : PostQueue), get_post db' e'.post_id = none →
      processItem pubs true clock db' e' =
        (update_queue_status db' e'.id "failed" (some "post not found")
          none clock, []) := by
  refine ⟨?_, ?_, fun db' e' hg => processItem_missing hg⟩
  · exact runLoop_dry_events pubs clock (list_due_queue db clock) db []
  · intro e he hsome
    exact runLoop_dry_preserves db hN he (list_due_queue db clock)
      (fun it hit => (mem_list_due_queue.mp hit).1) db [] he hsome

/-- Witness for the amended C4 at the scenario store (post present): the
dry-run cycle emits no publisher call and leaves the entry untouched. -/
theorem dry_run_cycle_frame_witness :
    ((scenarioDB.queue.map (fun q => q.id)).Nodup)
  ∧ ((run scenarioPubs true "2025-01-01T09:05:00" scenarioDB).2 = []
    ∧ (∀ e ∈ scenarioDB.queue,
        (get_post scenarioDB e.post_id).isSome = true →
        e ∈ (run scenarioPubs true "2025-01-01T09:05:00" scenarioDB).1.queue)
    ∧ ∀ (db' : DB) (e' : PostQueue), get_post db' e'.post_id = none →
        processItem scenarioPubs true "2025-01-01T09:05:00" db' e' =
          (update_queue_status db' e'.id "failed" (some "post not found")
            none "2025-01-01T09:05:00", [])) :=
  ⟨by decide,
   dry_run_cycle_frame scenarioPubs "2025-01-01T09:05:00" scenarioDB (by decide)⟩

/-- Claim C5, observed behaviour at the failing input: manual "post
now" on the `facebook` entry with a succeeding publisher (`"fb1"`) leaves
the posts table untouched and marks the entry `failed` with the
`FB: `-prefixed `TypeError` text, because
`repository.update_post_sns_ids` has no `fb_post_id` parameter (nor does
the `posts` table or the `Post` dataclass have the column) and the raised
`TypeError` is caught like a publish error — the entry never becomes
`posted` and no id is stamped. -/
theorem manual_facebook_success_marks_failed :
    applyOp fbDB (Op.manual scenarioPubs 1 "2025-01-01T09:05:00") =
      { posts := [post10],
        queue := [{ entryFb with
          status := "failed"
          error_msg := some ("FB: " ++ fbKwargError)
          posted_at := none }] } := by decide

/-! ### The posted_at / error_msg invariant (C8) -/

/-- The field invariant of §3 of the spec: `posted_at` is set iff the
status is `posted`, `error_msg` is set iff the last transition was to
`failed` (state-based reading: the status is `failed`). -/
@[reducible] def QueueInv (db : DB) : Prop :=
  ∀ e ∈ db.queue,
    (e.posted_at ≠ none ↔ e.status = "posted")
  ∧ (e.error_msg ≠ none ↔ e.status = "failed")

/-- The call shapes in which the system itself invokes `add_to_queue`
(`app.py:461`, defaults only) and `update_queue_status` (`posted` with no
message, `failed` with a non-null message). -/
def opWellFormed : Op → Bool
  | .add item _ _ =>
      item.status == "pending" && item.error_msg.isNone && item.posted_at.isNone
  | .updateStatus _ s msg _ _ =>
      (s == "posted" && msg.isNone) || (s == "failed" && !msg.isNone)
  | _ => true

theorem queueInv_update_queue_status {db : DB} (h : QueueInv db) (qid : Nat)
    {s : String} {msg : Option String} (pa : Option String) (clock : String)
    (hs : (s = "posted" ∧ msg = none) ∨ (s = "failed" ∧ msg ≠ none)) :
    QueueInv (update_queue_status db qid s msg pa clock) := by
  intro e' he'
  obtain ⟨e, he, hfe⟩ := List.mem_map.mp he'
  by_cases hid : (e.id == qid)
  · rw [if_pos hid] at hfe
    subst hfe
    rcases hs with ⟨hs1, hs2⟩ | ⟨hs1, hs2⟩ <;> subst hs1 <;> subst_eqs <;>
      constructor <;> simp_all
  · rw [if_neg hid] at hfe
    subst hfe
    exact h e he

theorem queueInv_of_queue_eq {db1 db2 : DB} (h : db2.queue = db1.queue)
    (hInv : QueueInv db1) : QueueInv db2 := by
  intro e he
  exact hInv e (h ▸ he)

theorem queueInv_finishItem {db : DB} (h : QueueInv db) (qid : Nat)
    (errors : List String) (events : List Event) (clock : String) :
    QueueInv (finishItem db qid errors events clock).1 := by
  unfold finishItem
  split
  · exact queueInv_update_queue_status h qid none clock (Or.inl ⟨rfl, rfl⟩)
  · exact queueInv_update_queue_status h qid none clock (Or.inr ⟨rfl, by simp⟩)

theorem queueInv_processItem {db : DB} (h : QueueInv db) (pubs : Publishers)
    (dryRun : Bool) (clock : String) (item : PostQueue) :
    QueueInv (processItem pubs dryRun clock db item).1 := by
  unfold processItem
  cases hg : get_post db item.post_id with
  | none =>
    exact queueInv_update_queue_status h item.id none clock (Or.inr ⟨rfl, by simp⟩)
  | some post =>
    dsimp only
    by_cases hd : dryRun
    · rw [if_pos hd]
      exact h
    · rw [if_neg hd]
      exact queueInv_finishItem
        (queueInv_of_queue_eq (igAttempt_queue ..)
          (queueInv_of_queue_eq (xAttempt_queue ..) h))
        item.id _ _ clock

theorem queueInv_runLoop (pubs : Publishers) (dryRun : Bool) (clock : String) :
    ∀ (items : List PostQueue) (db : DB) (evs : List Event), QueueInv db →
      QueueInv (runLoop pubs dryRun clock db evs items).1 := by
  intro items
  induction items with
  | nil => intro db evs h; exact h
  | cons it rest ih =>
    intro db evs h
    simp only [runLoop]
    exact ih _ _ (queueInv_processItem h pubs dryRun clock it)

theorem manualXAttempt_queue (pubs : Publishers) (clock platform : String)
    (post? : Option Post) (db : DB) :
    (manualXAttempt pubs clock platform post? db).1.queue = db.queue := by
  unfold manualXAttempt
  split
  · split
    · rfl
    · split <;> rfl
  · rfl

theorem manualIGAttempt_queue (pubs : Publishers) (clock platform : String)
    (post? : Option Post) (db : DB) :
    (manualIGAttempt pubs clock platform post? db).1.queue = db.queue := by
  unfold manualIGAttempt
  split
  · split
    · rfl
    · split <;> rfl
  · rfl

theorem manualFBAttempt_queue (pubs : Publishers) (platform : String)
    (post? : Option Post) (db : DB) :
    (manualFBAttempt pubs platform post? db).1.queue = db.queue := by
  unfold manualFBAttempt
  split
  · split
    · rfl
    · split <;> rfl
  · rfl

theorem queueInv_manualPostNow {db : DB} (h : QueueInv db) (pubs : Publishers)
    (clock : String) (row : PostQueue) :
    QueueInv (manualPostNow pubs clock db row).1 := by
  unfold manualPostNow
  dsimp only
  exact queueInv_finishItem
    (queueInv_of_queue_eq (manualFBAttempt_queue ..)
      (queueInv_of_queue_eq (manualIGAttempt_queue ..)
        (queueInv_of_queue_eq (manualXAttempt_queue ..) h)))
    row.id _ _ clock

theorem queueInv_add {db : DB} (h : QueueInv db) {item : PostQueue}
    (newId : Nat) (clock : String)
    (hitem : item.status = "pending" ∧ item.error_msg = none
      ∧ item.posted_at = none) :
    QueueInv (add_to_queue db item newId clock) := by
  intro e he
  rcases List.mem_append.mp he with he | he
  · exact h e he
  · obtain ⟨h1, h2, h3⟩ := hitem
    have : e = { item with id := newId, created_at := clock } := by
      simpa using he
    subst this
    constructor <;> simp [h1, h2, h3]

theorem queueInv_delete {db : DB} (h : QueueInv db) (qid : Nat) :
    QueueInv (delete_queue_item db qid) := by
  intro e he
  exact h e (List.mem_of_mem_filter he)

theorem queueInv_applyOp {db : DB} (h : QueueInv db) {op : Op}
    (hop : opWellFormed op) : QueueInv (applyOp db op) := by
  cases op with
  | add item newId clock =>
    simp only [opWellFormed, Bool.and_eq_true, beq_iff_eq,
      Option.isNone_iff_eq_none] at hop
    exact queueInv_add h newId clock ⟨hop.1.1, hop.1.2, hop.2⟩
  | updateStatus qid s msg pa clock =>
    simp only [opWellFormed, Bool.or_eq_true, Bool.and_eq_true, beq_iff_eq,
      Option.isNone_iff_eq_none, Bool.not_eq_true', Option.isNone_eq_false_iff,
      Option.isSome_iff_ne_none] at hop
    exact queueInv_update_queue_status h qid pa clock hop
  | delete qid => exact queueInv_delete h qid
  | dispatch pubs dr clock =>
    exact queueInv_runLoop pubs dr clock (list_due_queue db clock) db [] h
  | manual pubs qid clock =>
    unfold applyOp
    dsimp only
    cases hf : db.queue.find? (fun e => e.id == qid) with
    | none => exact h
    | some row =>
      dsimp only
      by_cases hr : (row.status == "pending" || row.status == "failed")
      · rw [if_pos hr]
        exact queueInv_manualPostNow h pubs clock row
      · rw [if_neg hr]
        exact h

/-- Initial and intermediate stores used for the C8 instantiations. -/
def emptyDB : DB := { posts := [], queue := [] }

/-- An operation sequence the repository accepts that breaks the claimed
invariant: insert a pending entry, then call
`update_status(1, "posted", error_msg="oops")` — a call the public
signature permits. -/
def badOps : List Op :=
  [Op.add { post_id := 10, platform := "x",
            scheduled_at := "2025-01-01T09:00:00", id := 0 }
     1 "2025-01-01T08:00:00",
   Op.updateStatus 1 "posted" (some "oops") none "2025-01-01T09:10:00"]

/-- Counterexample to **C8** as stated: after `badOps` the store holds an
entry with `status == "posted"` and `error_msg == "oops"` — `error_msg` is
non-null although the most recent transition was to `posted`, because
`update_queue_status` writes the `error_msg` argument unconditionally. -/
theorem posted_entry_with_error_msg_reachable :
    (applyOps emptyDB badOps).queue =
      [{ post_id := 10, platform := "x",
         scheduled_at := "2025-01-01T09:00:00", status := "posted",
         error_msg := some "oops", id := 1,
         created_at := "2025-01-01T08:00:00",
         posted_at := some "2025-01-01T09:10:00" }]
  ∧ ∃ e ∈ (applyOps emptyDB badOps).queue,
      e.error_msg ≠ none ∧ e.status = "posted" := by
  constructor
  · decide
  · decide

/-- Claim C8, amended: When `add` inserts entries with status `pending` and
null `error_msg`/`posted_at` (as the interactive surface does) and
`update_status` is only invoked in the shapes the system uses (`posted`
with no message, `failed` with a non-null message), every store reachable
by the public operations satisfies: `posted_at` is non-null iff
`status == posted`, and `error_msg` is non-null iff `status == failed`
(the most recent transition was to `failed`). -/
theorem reachable_states_invariant (db : DB) (ops : List Op)
    (h0 : QueueInv db) (hops : ∀ op ∈ ops, opWellFormed op) :
    QueueInv (applyOps db ops) := by
  induction ops generalizing db with
  | nil => exact h0
  | cons op rest ih =>
    exact ih (applyOp db op) (queueInv_applyOp h0 (hops op (by simp)))
      (fun o ho => hops o (by simp [ho]))

/-- A well-formed operation sequence exercising add, a failure, a retry to
posted, a dispatch cycle and a delete. -/
def goodOps : List Op :=
  [Op.add { post_id := 10, platform := "x",
            scheduled_at := "2025-01-01T09:00:00", id := 0 }
     1 "2025-01-01T08:00:00",
   Op.updateStatus 1 "failed" (some "X: boom") none "2025-01-01T09:01:00",
   Op.updateStatus 1 "posted" none none "2025-01-01T09:10:00",
   Op.dispatch scenarioPubs false "2025-01-01T09:20:00",
   Op.delete 1]

/-- Witness for the amended C8: the invariant holds all along `goodOps`. -/
theorem reachable_states_invariant_witness :
    (QueueInv emptyDB ∧ ∀ op ∈ goodOps, opWellFormed op)
  ∧ QueueInv (applyOps emptyDB goodOps) :=
  ⟨⟨by decide, by decide⟩,
   reachable_states_invariant emptyDB goodOps (by decide) (by decide)⟩

/-- Claim C2: For a due `both` entry (in the scenario store holding that
entry and its post) where the X publish succeeds returning `tid` and the
Instagram publish raises `emsg`, one dispatch cycle leaves the entry
`failed` with `error_msg = "IG: " ++ emsg` (the Instagram message with its
platform tag, the only error collected) while the X external id `tid` is
nevertheless durably stamped as the referenced Post's tweet id. -/
theorem dispatch_both_partial_failure (pubs : Publishers) (clock : String)
    (e : PostQueue) (post : Post) (tid emsg : String)
    (hplat : e.platform = "both") (hpend : e.status = "pending")
    (hdue : strLe e.scheduled_at clock = true) (hpid : post.id = e.post_id)
    (hx : pubs.x_creds = true) (hig : pubs.ig_creds = true)
    (hxp : pubs.post_tweet post.x_content = Except.ok tid)
    (higp : pubs.post_text_only post.ig_content = Except.error emsg) :
    (run pubs false clock { posts := [post], queue := [e] }).1 =
      { posts := [{ post with tweet_id := some tid, posted_at := some clock }],
        queue := [{ e with
          status := "failed"
          error_msg := some ("IG: " ++ emsg)
          posted_at := none }] } := by
  have hdueL : list_due_queue { posts := [post], queue := [e] } clock = [e] := by
    unfold list_due_queue
    simp [hpend, hdue]
  have hget : get_post { posts := [post], queue := [e] } e.post_id = some post := by
    unfold get_post
    simp [List.find?_cons, hpid]
  have hupd : update_post_sns_ids { posts := [post], queue := [e] } post.id
      (some tid) none none clock =
      { posts := [{ post with tweet_id := some tid, posted_at := some clock }],
        queue := [e] } := by
    unfold update_post_sns_ids
    simp
  have hxatt : xAttempt pubs clock e.platform post
      { posts := [post], queue := [e] } =
      ({ posts := [{ post with tweet_id := some tid, posted_at := some clock }],
         queue := [e] }, [Event.xPublish post.x_content], []) := by
    unfold xAttempt
    rw [hplat, if_pos (by decide), if_pos hx, hxp]
    dsimp only
    rw [hupd]
  have higatt : igAttempt pubs clock e.platform post
      { posts := [{ post with tweet_id := some tid, posted_at := some clock }],
        queue := [e] } =
      ({ posts := [{ post with tweet_id := some tid, posted_at := some clock }],
         queue := [e] }, [Event.igPublish post.ig_content],
       ["IG: " ++ emsg]) := by
    unfold igAttempt
    rw [hplat, if_pos (by decide), if_pos hig, higp]
  have hfin : update_queue_status
      { posts := [{ post with tweet_id := some tid, posted_at := some clock }],
        queue := [e] } e.id "failed" (some ("IG: " ++ emsg)) none clock =
      { posts := [{ post with tweet_id := some tid, posted_at := some clock }],
        queue := [{ e with
          status := "failed"
          error_msg := some ("IG: " ++ emsg)
          posted_at := none }] } := by
    unfold update_queue_status
    simp
  have hint : String.intercalate "; " ["IG: " ++ emsg] = "IG: " ++ emsg := rfl
  rw [run, hdueL]
  simp only [runLoop]
  unfold processItem
  rw [hget]
  dsimp only
  rw [if_neg Bool.false_ne_true]
  simp only [hxatt, higatt]
  unfold finishItem
  simp only [List.nil_append, List.isEmpty_cons, Bool.false_eq_true, if_false,
    hint]
  exact hfin

/-- Witness for C2: the spec's concrete scenario — entry 1 (`post_id=10`,
platform `both`, scheduled 09:00, pending) at 09:05, X returns `"t123"`,
Instagram raises `"rate limited"`; the entry ends failed with
`"IG: rate limited"` and post 10's tweet id is `"t123"`. -/
theorem dispatch_both_partial_failure_witness :
    (entry1.platform = "both" ∧ entry1.status = "pending"
      ∧ strLe entry1.scheduled_at "2025-01-01T09:05:00" = true
      ∧ post10.id = entry1.post_id
      ∧ scenarioPubs.x_creds = true ∧ scenarioPubs.ig_creds = true
      ∧ scenarioPubs.post_tweet post10.x_content = Except.ok "t123"
      ∧ scenarioPubs.post_text_only post10.ig_content =
          Except.error "rate limited")
  ∧ (run scenarioPubs false "2025-01-01T09:05:00"
        { posts := [post10], queue := [entry1] }).1 =
      { posts := [{ post10 with
          tweet_id := some "t123",
          posted_at := some "2025-01-01T09:05:00" }],
        queue := [{ entry1 with
          status := "failed"
          error_msg := some ("IG: " ++ "rate limited")
          posted_at := none }] } :=
  ⟨⟨by decide, by decide, by decide, by decide, by decide, by decide,
    rfl, rfl⟩,
   dispatch_both_partial_failure scenarioPubs "2025-01-01T09:05:00" entry1
     post10 "t123" "rate limited" (by decide) (by decide) (by decide)
     (by decide) (by decide) (by decide) rfl rfl⟩

end Tashinabi
